import Mathlib

/-!
Verification of the MM-purchasing remediation scanner (SAP note 1803189).

The source program (src/app/main.py) scans a text blob for deprecated
purchasing transaction codes, function-module names and archiving report
names, using five case-insensitive patterns built from fixed reference
tables, and returns a list of suggestion records carrying the character
span of each matched call site, a suggested replacement statement, an
ambiguity flag and an optional note.

Texts are embedded as `List Char`; spans are character offsets, exactly as
Python string indices.  Each regular expression of the source is embedded
as a deterministic matcher `List Char → Option (List Char × α × List Char)`
returning the consumed characters, the captured data and the remaining
characters.  Determinism is faithful: in every pattern of the source the
points where Python's backtracking could act are vacuous, because

  - the optional quote before a transaction code cannot steal the first
    character of a code (codes never start with a quote),
  - no identifier of an alternation is a proper prefix of another
    identifier of the same alternation (transaction codes all have four
    characters, report names all have eight, function names have no
    prefix relations), so at most one alternative can match at a point,
  - the greedy character classes `[A-Z]*` and the class of non-dot
    characters stop at a character that no later piece of the pattern
    could consume instead.

Python's `finditer` (leftmost match, continue after the end of each match)
is embedded as `finditer` below, driven by a fuel argument equal to the
text length; every matcher consumes at least its leading keyword, so the
fuel never runs out before the end of the text.
-/

/-- Single quote character (kept out of string literals). -/
def sqc : Char := Char.ofNat 39

/-- Single quote as a one-character string. -/
def squo : String := String.mk [sqc]

/-- Python `\s` on the ASCII range: space, tab, newline, CR, VT, FF. -/
def isSpaceB (c : Char) : Bool :=
  c = ' ' || c = '\t' || c = '\n' || c = '\r' || c = Char.ofNat 11 || c = Char.ofNat 12

/-- The character class of the pattern fragment matching a quote. -/
def isQuoteB (c : Char) : Bool := c = '"' || c = sqc

/-- The statement terminator of the patterns. -/
def isDotB (c : Char) : Bool := c = '.'

/-- Python `[^\.]` under DOTALL: any character other than the dot. -/
def notDotB (c : Char) : Bool := !(c = '.')

/-- Python `\w` on the ASCII range, used for the boundary test. -/
def isWordB (c : Char) : Bool := c.isAlphanum || c = '_'

/-- Python `[A-Z]` under IGNORECASE on the ASCII range. -/
def isLetterB (c : Char) : Bool := c.isAlpha

/-- A matcher: consumed characters, captured data, remaining characters. -/
abbrev Matcher (α : Type) := List Char → Option (List Char × α × List Char)

/-- Case-insensitive literal, as Python literal characters under IGNORECASE. -/
def pLit : List Char → Matcher Unit
  | [], s => some ([], (), s)
  | _ :: _, [] => none
  | p :: ps, c :: cs =>
    if c.toUpper = p.toUpper then
      match pLit ps cs with
      | some (m, _, r) => some (c :: m, (), r)
      | none => none
    else none

/-- One character of a class, required (as `['"]` or `\.` in the source). -/
def pChar (cl : Char → Bool) : Matcher Unit := fun s =>
  match s with
  | [] => none
  | c :: cs => if cl c then some ([c], (), cs) else none

/-- One optional character of a class (as `['"]?` or `\.?` in the source). -/
def pOpt (cl : Char → Bool) : Matcher Unit := fun s =>
  match s with
  | [] => some ([], (), [])
  | c :: cs => if cl c then some ([c], (), cs) else some ([], (), c :: cs)

/-- Greedy star over a class (as `\s*`, `[A-Z]*`, `[^\.]*` in the source). -/
def pStar (cl : Char → Bool) : Matcher Unit := fun s =>
  some (s.takeWhile cl, (), s.dropWhile cl)

/-- Greedy plus over the whitespace class (as `\s+` in the source). -/
def pSpaces1 : Matcher Unit := fun s =>
  let m := s.takeWhile isSpaceB
  if m.isEmpty then none else some (m, (), s.dropWhile isSpaceB)

/-- Python `\b` after a word character: zero-width, next char not a word char. -/
def pBoundary : Matcher Unit := fun s =>
  match s with
  | [] => some ([], (), [])
  | c :: cs => if isWordB c then none else some ([], (), c :: cs)

/-- Sequencing of matchers, concatenating the consumed characters. -/
def pBind {α β : Type} (p : Matcher α) (q : α → Matcher β) : Matcher β := fun s =>
  match p s with
  | none => none
  | some (m, a, r) =>
    match q a r with
    | none => none
    | some (m2, b, r2) => some (m ++ m2, b, r2)

/-- The matcher consuming nothing and returning a value. -/
def pPure {α : Type} (a : α) : Matcher α := fun s => some ([], a, s)

/-- Ordered alternation of two matchers, as `|` in the source patterns. -/
def pOrElse {α : Type} (p q : Matcher α) : Matcher α := fun s =>
  match p s with
  | some x => some x
  | none => q s

/-- Capture the characters consumed by a matcher, as a regex group. -/
def pGroup {α : Type} (p : Matcher α) : Matcher (List Char) := fun s =>
  match p s with
  | some (m, _, r) => some (m, m, r)
  | none => none

/-- Ordered alternation of case-insensitive identifiers, returning the
identifier that matched (the source uppercases the matched text; the
identifiers of the tables are uppercase, so the two coincide). -/
def pAlts : List String → Matcher String
  | [], _ => none
  | n :: ns, s =>
    match pLit n.data s with
    | some (m, _, r) => some (m, n, r)
    | none => pAlts ns s

/-- All matches of a matcher over a text, as Python `finditer`: leftmost
match first, the scan resumes after the end of each match.  `fuel` bounds
the recursion; with `fuel = s.length` it never runs out, since every
matcher used below consumes at least one character when it succeeds. -/
def finditerAux {α : Type} (p : Matcher α) : Nat → List Char → Nat → List (Nat × Nat × α)
  | 0, _, _ => []
  | _ + 1, [], _ => []
  | fuel + 1, c :: cs, pos =>
    match p (c :: cs) with
    | some (m, a, r) => (pos, pos + m.length, a) :: finditerAux p fuel r (pos + m.length)
    | none => finditerAux p fuel cs (pos + 1)

/-- All matches of a matcher over a text, with spans `[start, end)`. -/
def finditer {α : Type} (p : Matcher α) (s : List Char) : List (Nat × Nat × α) :=
  finditerAux p s.length s 0

-- -----------------------------
-- Reference mappings (1803189), as in src/app/main.py
-- -----------------------------

/-- Classic -> Enjoy transactions (`TXN_MAP`), in source order. -/
def TXN_MAP : List (String × List String) :=
  [("ME21", ["ME21N"]),
   ("ME22", ["ME22N"]),
   ("ME23", ["ME23N"]),
   ("ME24", ["ME21N", "ME22N"]),
   ("ME25", ["ME21N"]),
   ("ME27", ["ME21N"]),
   ("ME28", ["ME29N"]),
   ("ME51", ["ME51N"]),
   ("ME52", ["ME52N"]),
   ("ME53", ["ME53N"]),
   ("ME54", ["ME54N"]),
   ("ME59", ["ME59N"])]

/-- Replacement name and advisory note of a function-module entry. -/
structure FnInfo where
  new : String
  note : String
deriving DecidableEq, Repr

/-- BAPI replacements (`BAPI_MAP`). -/
def BAPI_MAP : List (String × FnInfo) :=
  [("BAPI_PO_CREATE", ⟨"BAPI_PO_CREATE1", "Use Enjoy PO BAPI."⟩),
   ("BAPI_PO_GETDETAIL", ⟨"BAPI_PO_GETDETAIL1", "Use Enjoy PO BAPI."⟩),
   ("BAPI_REQUISITION_CREATE", ⟨"BAPI_PR_CREATE", "Use PR Enjoy BAPI."⟩),
   ("BAPI_REQUISITION_CHANGE", ⟨"BAPI_PR_CHANGE", "Use PR Enjoy BAPI."⟩),
   ("BAPI_REQUISITION_DELETE", ⟨"BAPI_PR_CHANGE", "Delete via CHANGE in Enjoy BAPI."⟩),
   ("BAPI_REQUISITION_GETDETAIL", ⟨"BAPI_PR_GETDETAIL", "Use PR Enjoy BAPI."⟩)]

/-- IDoc input function modules (`IDOC_MAP`); PORDCH maps to itself. -/
def IDOC_MAP : List (String × FnInfo) :=
  [("IDOC_INPUT_PORDCR", ⟨"IDOC_INPUT_PORDCR1", "Use new PO IDoc FM (BUS2012)."⟩),
   ("IDOC_INPUT_PORDCH", ⟨"IDOC_INPUT_PORDCH", "Ensure BUS2012 version is used."⟩),
   ("IDOC_INPUT_PREQCR", ⟨"IDOC_INPUT_PREQCR1", "Use new PR IDoc FM (BUS2105)."⟩)]

/-- Replacement name and archiving object of an archived-report entry. -/
structure ArchInfo where
  new : String
  obj : String
deriving DecidableEq, Repr

/-- Archiving reports *47 -> *70 (`ARCHIVE_REPORT_MAP`). -/
def ARCHIVE_REPORT_MAP : List (String × ArchInfo) :=
  [("RM06EV47", ⟨"RM06EV70", "MM_EKKO"⟩),
   ("RM06EW47", ⟨"RM06EW70", "MM_EKKO"⟩),
   ("RM06ED47", ⟨"RM06ED70", "MM_EKKO"⟩),
   ("RM06BV47", ⟨"RM06BV70", "MM_EBAN"⟩),
   ("RM06BW47", ⟨"RM06BW70", "MM_EBAN"⟩),
   ("RM06BD47", ⟨"RM06BD70", "MM_EBAN"⟩),
   ("RM06IW47", ⟨"RM06IW70", "MM_EINA"⟩),
   ("RM06ID47", ⟨"RM06ID70", "MM_EINA"⟩)]

/-- Families of very old *30 archiving reports (`ARCHIVE_30_PREFIXES`). -/
def ARCHIVE_30_FAMILIES : List String := ["RM06E", "RM06B", "RM06I"]

/-- Read programs (`READ_REPORTS`); a Python set of three names of equal
length with no prefix relations, so its iteration order is immaterial. -/
def READ_REPORTS : List String := ["RM06ER30", "RM06BR30", "RM06IR30"]

/-- `TXN_NAMES`: the keys of `TXN_MAP` sorted by length descending
(stable).  All keys have four characters, so the sort is the identity. -/
def TXN_NAMES : List String :=
  ["ME21", "ME22", "ME23", "ME24", "ME25", "ME27", "ME28",
   "ME51", "ME52", "ME53", "ME54", "ME59"]

/-- `FUNC_NAMES`: the union of the keys of `BAPI_MAP` and `IDOC_MAP`
sorted by length descending.  The order of the ties (which depends on
Python's set iteration order) is immaterial: no name is a prefix of
another, so at most one alternative can match at a given point. -/
def FUNC_NAMES : List String :=
  ["BAPI_REQUISITION_GETDETAIL",
   "BAPI_REQUISITION_CREATE", "BAPI_REQUISITION_CHANGE", "BAPI_REQUISITION_DELETE",
   "BAPI_PO_GETDETAIL", "IDOC_INPUT_PORDCR", "IDOC_INPUT_PORDCH", "IDOC_INPUT_PREQCR",
   "BAPI_PO_CREATE"]

/-- `ARCH47_NAMES`: keys of `ARCHIVE_REPORT_MAP` sorted by length
descending (stable).  All keys have eight characters: identity sort. -/
def ARCH47_NAMES : List String :=
  ["RM06EV47", "RM06EW47", "RM06ED47", "RM06BV47", "RM06BW47", "RM06BD47",
   "RM06IW47", "RM06ID47"]

/-- Dictionary lookup (`dict.get`) on an association list. -/
def lookupTbl {β : Type} (tbl : List (String × β)) (k : String) : Option β :=
  (tbl.find? (fun p => p.1 == k)).map (fun p => p.2)

-- -----------------------------
-- The five patterns
-- -----------------------------

/-- The `stmt` group of `TXN_RE`: `CALL\s+TRANSACTION|SUBMIT`. -/
def pStmtTxn : Matcher (List Char) :=
  pOrElse
    (pGroup (pBind (pLit "CALL".data) (fun _ =>
      pBind pSpaces1 (fun _ => pLit "TRANSACTION".data))))
    (pGroup (pLit "SUBMIT".data))

/-- `TXN_RE`: `(CALL\s+TRANSACTION|SUBMIT)\s+['"]?(name)['"]?\s*\.?`.
Data: the matched keyword characters and the (uppercase) matched code.
Note there is no `\b` after the name in the source pattern. -/
def sTXN : Matcher (List Char × String) :=
  pBind pStmtTxn (fun stmt =>
  pBind pSpaces1 (fun _ =>
  pBind (pOpt isQuoteB) (fun _ =>
  pBind (pAlts TXN_NAMES) (fun name =>
  pBind (pOpt isQuoteB) (fun _ =>
  pBind (pStar isSpaceB) (fun _ =>
  pBind (pOpt isDotB) (fun _ =>
  pPure (stmt, name))))))))

/-- `FUNC_RE`: `CALL\s+FUNCTION\s+['"](name)['"][^\.]*\.`. -/
def sFUNC : Matcher String :=
  pBind (pLit "CALL".data) (fun _ =>
  pBind pSpaces1 (fun _ =>
  pBind (pLit "FUNCTION".data) (fun _ =>
  pBind pSpaces1 (fun _ =>
  pBind (pChar isQuoteB) (fun _ =>
  pBind (pAlts FUNC_NAMES) (fun name =>
  pBind (pChar isQuoteB) (fun _ =>
  pBind (pStar notDotB) (fun _ =>
  pBind (pChar isDotB) (fun _ =>
  pPure name)))))))))

/-- Shape of `ARCH47_RE` and `READ_RE`: `SUBMIT\s+(name)\b[^\.]*\.`. -/
def pSubmitReport (names : List String) : Matcher String :=
  pBind (pLit "SUBMIT".data) (fun _ =>
  pBind pSpaces1 (fun _ =>
  pBind (pAlts names) (fun name =>
  pBind pBoundary (fun _ =>
  pBind (pStar notDotB) (fun _ =>
  pBind (pChar isDotB) (fun _ =>
  pPure name))))))

/-- `ARCH47_RE`. -/
def sARCH47 : Matcher String := pSubmitReport ARCH47_NAMES

/-- `READ_RE`. -/
def sREAD : Matcher String := pSubmitReport READ_REPORTS

/-- `ARCH30_RE`: `SUBMIT\s+((RM06E|RM06B|RM06I)[A-Z]*30)\b[^\.]*\.`,
data: the uppercased name group. -/
def sARCH30 : Matcher String :=
  pBind (pLit "SUBMIT".data) (fun _ =>
  pBind pSpaces1 (fun _ =>
  pBind (pGroup (pBind (pAlts ARCHIVE_30_FAMILIES) (fun _ =>
         pBind (pStar isLetterB) (fun _ => pLit "30".data)))) (fun nm =>
  pBind pBoundary (fun _ =>
  pBind (pStar notDotB) (fun _ =>
  pBind (pChar isDotB) (fun _ =>
  pPure (String.mk (nm.map Char.toUpper))))))))

-- -----------------------------
-- Suggestion records
-- -----------------------------

/-- A suggestion record, as built by `_add_hit` in the source.  `note` is
`none` when the source dict would not carry the `note` key. -/
structure Hit where
  table : String
  target_type : String
  target_name : String
  start_char_in_unit : Nat
  end_char_in_unit : Nat
  used_fields : List String
  ambiguous : Bool
  suggested_statement : String
  suggested_fields : Option String
  note : Option String
deriving DecidableEq, Repr

/-- `_add_hit` of the source, as a record constructor: the reserved fields
are the constants of the source, and the `note` key is set only when the
note is present and non-empty (Python `if note:`). -/
def mkHit (st en : Nat) (ttype tname sugg : String)
    (note : Option String) (amb : Bool) : Hit :=
  ⟨"None", ttype, tname, st, en, [], amb, sugg,
   none,
   match note with
   | some s => if s.isEmpty then none else some s
   | none => none⟩

/-- `_mk_suggested_statement` of the source.  `stmt` is the matched
leading keyword; `old` is unused, exactly as in the source.  The source
indexes `news[0]`, which its callers only reach with a non-empty list;
`headD` with a default is the total rendering of that access. -/
def mk_suggested_statement (kind old : String) (news : List String)
    (stmt : List Char) : String :=
  let up := stmt.map Char.toUpper
  if kind = "txn" then
    if news.length = 1 then
      if List.isPrefixOf "SUBMIT".data up then
        "SUBMIT " ++ news.headD "" ++ "."
      else
        "CALL TRANSACTION " ++ squo ++ news.headD "" ++ squo ++ "."
    else
      if List.isPrefixOf "SUBMIT".data up then
        String.intercalate " or " (news.map (fun n => "SUBMIT " ++ n ++ "."))
      else
        String.intercalate " or "
          (news.map (fun n => "CALL TRANSACTION " ++ squo ++ n ++ squo ++ "."))
  else if kind = "func" then
    "CALL FUNCTION " ++ squo ++ news.headD "" ++ squo ++ "."
  else if kind = "report" then
    "SUBMIT " ++ news.headD "" ++ "."
  else ""

/-- The per-code advisory notes of the transaction pass. -/
def txnNote (name : String) : Option String :=
  if name = "ME25" then
    some "ME25 functions available via ME21N (use Hold / Enjoy features)."
  else if name = "ME27" then
    some "PO without material: create via ME21N."
  else none

-- -----------------------------
-- The five passes and the scan
-- -----------------------------

/-- Pass 1 of `find_mm_purchasing_issues`: transactions. -/
def txnHits (txt : List Char) : List Hit :=
  (finditer sTXN txt).filterMap (fun t =>
    match t with
    | (st, en, stmt, name) =>
      match lookupTbl TXN_MAP name with
      | some repls =>
        if repls.isEmpty then none
        else some (mkHit st en "Transaction" name
          (mk_suggested_statement "txn" name repls stmt)
          (txnNote name)
          (decide (1 < repls.length)))
      | none => none)

/-- Pass 2: BAPIs and IDoc input function modules.  `FUNC_NAMES` is
non-empty, so the `if FUNC_RE:` guard of the source is passed. -/
def funcHits (txt : List Char) : List Hit :=
  (finditer sFUNC txt).filterMap (fun t =>
    match t with
    | (st, en, name) =>
      match lookupTbl BAPI_MAP name with
      | some info => some (mkHit st en "FunctionModule" name
          (mk_suggested_statement "func" name [info.new] "CALL FUNCTION".data)
          (some info.note) false)
      | none =>
        match lookupTbl IDOC_MAP name with
        | some info => some (mkHit st en "FunctionModule" name
            (mk_suggested_statement "func" name [info.new] "CALL FUNCTION".data)
            (some info.note) (decide (info.new = name)))
        | none => none)

/-- Pass 3: archiving reports *47 -> *70. -/
def arch47Hits (txt : List Char) : List Hit :=
  (finditer sARCH47 txt).filterMap (fun t =>
    match t with
    | (st, en, name) =>
      match lookupTbl ARCHIVE_REPORT_MAP name with
      | some info => some (mkHit st en "Report" name
          (mk_suggested_statement "report" name [info.new] "SUBMIT".data)
          (some ("Archiving Object " ++ info.obj ++ ": use *70 reports (EhP4+)."))
          false)
      | none => none)

/-- Pass 4: very old *30 archiving reports, generic redirect.  The source
computes `family = name[:5]` and never uses it. -/
def arch30Hits (txt : List Char) : List Hit :=
  (finditer sARCH30 txt).filterMap (fun t =>
    match t with
    | (st, en, name) =>
      some (mkHit st en "Report" name
        "SUBMIT <corresponding RM06**70 report>."
        (some "Move to RM06**70 reports (EhP4+).")
        true))

/-- Pass 5: read programs, advisory redirect to SARI. -/
def readHits (txt : List Char) : List Hit :=
  (finditer sREAD txt).filterMap (fun t =>
    match t with
    | (st, en, name) =>
      some (mkHit st en "Report" name
        "Use transaction SARI for displaying archived MM Purchasing documents."
        (some "Read programs still usable; consider using Archive Information System (SARI).")
        true))

/-- `find_mm_purchasing_issues` of the source: empty text short-circuits
(Python `if not txt`), otherwise the five passes run in the fixed order
and their records are concatenated. -/
def find_mm_purchasing_issues (txt : String) : List Hit :=
  if txt = "" then []
  else
    txnHits txt.data ++ funcHits txt.data ++ arch47Hits txt.data
      ++ arch30Hits txt.data ++ readHits txt.data

/-- The endpoint's treatment of an absent unit text: `u.code or ""`
(`None` and the empty string both scan as the empty text). -/
def scan_unit_code (code : Option String) : List Hit :=
  find_mm_purchasing_issues (code.getD "")

-- -----------------------------
-- Soundness: a matcher splits its input into consumed ++ rest
-- -----------------------------

/-- A matcher is sound when a successful run splits the input text into
the consumed characters followed by the remaining characters. -/
def MSound {α : Type} (p : Matcher α) : Prop :=
  ∀ s m a r, p s = some (m, a, r) → m ++ r = s

theorem pLit_sound (pat : List Char) : MSound (pLit pat) := by
  induction pat with
  | nil =>
    intro s m a r h
    simp only [pLit] at h
    cases h
    simp
  | cons p ps ih =>
    intro s m a r h
    cases s with
    | nil => simp [pLit] at h
    | cons c cs =>
      simp only [pLit] at h
      split at h
      · cases hrec : pLit ps cs with
        | none => simp only [hrec] at h; cases h
        | some trip =>
          obtain ⟨m2, u, r2⟩ := trip
          simp only [hrec, Option.some.injEq, Prod.mk.injEq] at h
          obtain ⟨hm, _, hr⟩ := h
          subst hm
          subst hr
          have := ih cs m2 u r2 hrec
          simp [this]
      · cases h

theorem pChar_sound (cl : Char → Bool) : MSound (pChar cl) := by
  intro s m a r h
  cases s with
  | nil => simp [pChar] at h
  | cons c cs =>
    simp only [pChar] at h
    split at h
    · cases h; simp
    · cases h

theorem pOpt_sound (cl : Char → Bool) : MSound (pOpt cl) := by
  intro s m a r h
  cases s with
  | nil => simp only [pOpt] at h; cases h; simp
  | cons c cs =>
    simp only [pOpt] at h
    split at h
    · cases h; simp
    · cases h; simp

theorem pStar_sound (cl : Char → Bool) : MSound (pStar cl) := by
  intro s m a r h
  simp only [pStar] at h
  cases h
  exact List.takeWhile_append_dropWhile cl s

theorem pSpaces1_sound : MSound pSpaces1 := by
  intro s m a r h
  simp only [pSpaces1] at h
  split at h
  · cases h
  · cases h
    exact List.takeWhile_append_dropWhile isSpaceB s

theorem pBoundary_sound : MSound pBoundary := by
  intro s m a r h
  cases s with
  | nil => simp only [pBoundary] at h; cases h; simp
  | cons c cs =>
    simp only [pBoundary] at h
    split at h
    · cases h
    · cases h; simp

theorem pPure_sound {α : Type} (a : α) : MSound (pPure a) := by
  intro s m a' r h
  simp only [pPure] at h
  cases h
  simp

theorem pBind_sound {α β : Type} {p : Matcher α} {q : α → Matcher β}
    (hp : MSound p) (hq : ∀ a, MSound (q a)) : MSound (pBind p q) := by
  intro s m b r h
  simp only [pBind] at h
  cases h1 : p s with
  | none => simp only [h1] at h; cases h
  | some trip =>
    obtain ⟨m1, a, r1⟩ := trip
    simp only [h1] at h
    cases h2 : q a r1 with
    | none => simp only [h2] at h; cases h
    | some trip2 =>
      obtain ⟨m2, b2, r2⟩ := trip2
      simp only [h2, Option.some.injEq, Prod.mk.injEq] at h
      obtain ⟨hm, _, hr⟩ := h
      subst hm
      subst hr
      have e1 := hp s m1 a r1 h1
      have e2 := hq a r1 m2 b2 r2 h2
      rw [List.append_assoc, e2, e1]

theorem pOrElse_sound {α : Type} {p q : Matcher α}
    (hp : MSound p) (hq : MSound q) : MSound (pOrElse p q) := by
  intro s m a r h
  simp only [pOrElse] at h
  cases h1 : p s with
  | none => rw [h1] at h; exact hq s m a r h
  | some trip => rw [h1] at h; cases h; exact hp s m a r h1

theorem pGroup_sound {α : Type} {p : Matcher α} (hp : MSound p) :
    MSound (pGroup p) := by
  intro s m a r h
  simp only [pGroup] at h
  cases h1 : p s with
  | none => rw [h1] at h; cases h
  | some trip =>
    obtain ⟨m1, a1, r1⟩ := trip
    rw [h1] at h
    cases h
    exact hp s m a1 r h1

theorem pAlts_sound (names : List String) : MSound (pAlts names) := by
  induction names with
  | nil => intro s m a r h; simp [pAlts] at h
  | cons n ns ih =>
    intro s m a r h
    simp only [pAlts] at h
    cases h1 : pLit n.data s with
    | none => rw [h1] at h; exact ih s m a r h
    | some trip =>
      obtain ⟨m1, u, r1⟩ := trip
      rw [h1] at h
      cases h
      exact pLit_sound n.data s m u r h1

theorem pStmtTxn_sound : MSound pStmtTxn :=
  pOrElse_sound
    (pGroup_sound (pBind_sound (pLit_sound _)
      (fun _ => pBind_sound pSpaces1_sound (fun _ => pLit_sound _))))
    (pGroup_sound (pLit_sound _))

theorem sTXN_sound : MSound sTXN :=
  pBind_sound pStmtTxn_sound (fun _ =>
  pBind_sound pSpaces1_sound (fun _ =>
  pBind_sound (pOpt_sound _) (fun _ =>
  pBind_sound (pAlts_sound _) (fun _ =>
  pBind_sound (pOpt_sound _) (fun _ =>
  pBind_sound (pStar_sound _) (fun _ =>
  pBind_sound (pOpt_sound _) (fun _ =>
  pPure_sound _)))))))

theorem sFUNC_sound : MSound sFUNC :=
  pBind_sound (pLit_sound _) (fun _ =>
  pBind_sound pSpaces1_sound (fun _ =>
  pBind_sound (pLit_sound _) (fun _ =>
  pBind_sound pSpaces1_sound (fun _ =>
  pBind_sound (pChar_sound _) (fun _ =>
  pBind_sound (pAlts_sound _) (fun _ =>
  pBind_sound (pChar_sound _) (fun _ =>
  pBind_sound (pStar_sound _) (fun _ =>
  pBind_sound (pChar_sound _) (fun _ =>
  pPure_sound _)))))))))

theorem pSubmitReport_sound (names : List String) : MSound (pSubmitReport names) :=
  pBind_sound (pLit_sound _) (fun _ =>
  pBind_sound pSpaces1_sound (fun _ =>
  pBind_sound (pAlts_sound _) (fun _ =>
  pBind_sound pBoundary_sound (fun _ =>
  pBind_sound (pStar_sound _) (fun _ =>
  pBind_sound (pChar_sound _) (fun _ =>
  pPure_sound _))))))

theorem sARCH47_sound : MSound sARCH47 := pSubmitReport_sound _

theorem sREAD_sound : MSound sREAD := pSubmitReport_sound _

theorem sARCH30_sound : MSound sARCH30 :=
  pBind_sound (pLit_sound _) (fun _ =>
  pBind_sound pSpaces1_sound (fun _ =>
  pBind_sound (pGroup_sound (pBind_sound (pAlts_sound _) (fun _ =>
      pBind_sound (pStar_sound _) (fun _ => pLit_sound _)))) (fun _ =>
  pBind_sound pBoundary_sound (fun _ =>
  pBind_sound (pStar_sound _) (fun _ =>
  pBind_sound (pChar_sound _) (fun _ =>
  pPure_sound _))))))

-- -----------------------------
-- Spans returned by finditer
-- -----------------------------

/-- Dropping past an appended block. -/
theorem drop_append_block {γ : Type} (m r : List γ) (k : Nat) :
    (m ++ r).drop (m.length + k) = r.drop k := by
  induction m with
  | nil => simp
  | cons c cs ih =>
    have : (c :: cs).length + k = (cs.length + k) + 1 := by simp; omega
    rw [this]
    simpa using ih

/-- Taking exactly an appended block. -/
theorem take_append_block {γ : Type} (m r : List γ) :
    (m ++ r).take m.length = m := by
  induction m with
  | nil => simp
  | cons c cs ih => simpa using ih

/-- Every triple of `finditerAux` comes from a successful run of the
matcher at its start offset, and its span lies within the suffix. -/
theorem finditerAux_spec {α : Type} (p : Matcher α) (hp : MSound p) :
    ∀ (fuel : Nat) (s : List Char) (pos st en : Nat) (a : α),
      (st, en, a) ∈ finditerAux p fuel s pos →
      pos ≤ st ∧ en ≤ pos + s.length ∧
      ∃ m r, p (s.drop (st - pos)) = some (m, a, r) ∧ en = st + m.length := by
  intro fuel
  induction fuel with
  | zero => intro s pos st en a h; simp [finditerAux] at h
  | succ fuel ih =>
    intro s pos st en a h
    cases s with
    | nil => simp [finditerAux] at h
    | cons c cs =>
      simp only [finditerAux] at h
      cases hps : p (c :: cs) with
      | none =>
        rw [hps] at h
        obtain ⟨h1, h2, m, r, h3, h4⟩ := ih cs (pos + 1) st en a h
        refine ⟨by omega, by simp only [List.length_cons]; omega, m, r, ?_, h4⟩
        have hd : st - pos = (st - (pos + 1)) + 1 := by omega
        rw [hd, List.drop_succ_cons]
        exact h3
      | some trip =>
        obtain ⟨m, a', r⟩ := trip
        rw [hps] at h
        rcases List.mem_cons.mp h with heq | htail
        · obtain ⟨rfl, rfl, rfl⟩ := Prod.mk.injEq .. ▸ heq
          have hmr := hp _ _ _ _ hps
          have hlen : m.length ≤ (c :: cs).length := by
            rw [← hmr]; simp
          refine ⟨Nat.le_refl _, by simpa using hlen, m, r, ?_, rfl⟩
          simpa [Nat.sub_self] using hps
        · have hmr := hp _ _ _ _ hps
          obtain ⟨h1, h2, m2, r2, h3, h4⟩ := ih r (pos + m.length) st en a htail
          have hlen : m.length + r.length = (c :: cs).length := by
            rw [← hmr]; simp
          refine ⟨by omega, by omega, m2, r2, ?_, h4⟩
          have hd : st - pos = m.length + (st - (pos + m.length)) := by omega
          rw [hd, ← hmr, drop_append_block]
          exact h3

/-- Spans of `finditer`: valid bounds, and the slice of the text over the
span is exactly the text consumed by the matcher run that produced it. -/
theorem finditer_spec {α : Type} (p : Matcher α) (hp : MSound p)
    (s : List Char) (st en : Nat) (a : α)
    (h : (st, en, a) ∈ finditer p s) :
    st ≤ en ∧ en ≤ s.length ∧
    ∃ m r, p (s.drop st) = some (m, a, r) ∧ en = st + m.length ∧
      (s.drop st).take (en - st) = m := by
  obtain ⟨h1, h2, m, r, h3, h4⟩ := finditerAux_spec p hp s.length s 0 st en a h
  have hmr := hp _ _ _ _ h3
  refine ⟨by omega, by omega, m, r, by simpa using h3, h4, ?_⟩
  have : en - st = m.length := by omega
  rw [this]
  simp only [Nat.sub_zero] at h3 hmr
  rw [← hmr, take_append_block]

-- -----------------------------
-- Per-pass facts: spans, reserved fields, triggering matcher
-- -----------------------------

/-- What C3 and C10 need of a record of one pass: the span is within the
text, the slice of the text over the span is exactly the text consumed by
a successful run of the pass's matcher at the start offset, and the
reserved fields hold their constants. -/
def HitFromMatcher {α : Type} (p : Matcher α) (txt : List Char) (h : Hit) : Prop :=
  h.start_char_in_unit ≤ h.end_char_in_unit ∧
  h.end_char_in_unit ≤ txt.length ∧
  h.table = "None" ∧ h.used_fields = [] ∧ h.suggested_fields = none ∧
  ∃ m a r, p (txt.drop h.start_char_in_unit) = some (m, a, r) ∧
    h.end_char_in_unit = h.start_char_in_unit + m.length ∧
    (txt.drop h.start_char_in_unit).take (h.end_char_in_unit - h.start_char_in_unit) = m

/-- Generic lifting: a pass built as `filterMap` over `finditer p txt`
whose builder only produces `mkHit` records at the span of its triple. -/
theorem filterMap_hit_spec {α : Type} (p : Matcher α) (hp : MSound p)
    (g : Nat × Nat × α → Option Hit) (txt : List Char) (h : Hit)
    (hg : ∀ st en d hh, g (st, en, d) = some hh →
      hh.start_char_in_unit = st ∧ hh.end_char_in_unit = en ∧
      hh.table = "None" ∧ hh.used_fields = [] ∧ hh.suggested_fields = none)
    (hmem : h ∈ (finditer p txt).filterMap g) :
    HitFromMatcher p txt h := by
  rw [List.mem_filterMap] at hmem
  obtain ⟨trip, hin, hgh⟩ := hmem
  obtain ⟨st, en, d⟩ := trip
  obtain ⟨hst, hen, htb, huf, hsf⟩ := hg st en d h hgh
  obtain ⟨h1, h2, m, r, h3, h4, h5⟩ := finditer_spec p hp txt st en d hin
  subst hst
  subst hen
  exact ⟨h1, h2, htb, huf, hsf, m, d, r, h3, h4, h5⟩

/-- The builder of the transaction pass constructs records at the span. -/
theorem txnHits_spec (txt : List Char) (h : Hit) (hm : h ∈ txnHits txt) :
    HitFromMatcher sTXN txt h := by
  refine filterMap_hit_spec sTXN sTXN_sound _ txt h ?_ hm
  intro st en d hh hg
  obtain ⟨stmt, name⟩ := d
  simp only at hg
  cases hl : lookupTbl TXN_MAP name with
  | none => simp only [hl] at hg; cases hg
  | some repls =>
    simp only [hl] at hg
    split at hg
    · cases hg
    · cases hg
      simp [mkHit]

/-- The builder of the function-module pass constructs records at the span. -/
theorem funcHits_spec (txt : List Char) (h : Hit) (hm : h ∈ funcHits txt) :
    HitFromMatcher sFUNC txt h := by
  refine filterMap_hit_spec sFUNC sFUNC_sound _ txt h ?_ hm
  intro st en d hh hg
  simp only at hg
  cases hl : lookupTbl BAPI_MAP d with
  | some info =>
    simp only [hl] at hg
    cases hg
    simp [mkHit]
  | none =>
    simp only [hl] at hg
    cases hl2 : lookupTbl IDOC_MAP d with
    | none => simp only [hl2] at hg; cases hg
    | some info =>
      simp only [hl2] at hg
      cases hg
      simp [mkHit]

/-- The builder of the *47 archiving pass constructs records at the span. -/
theorem arch47Hits_spec (txt : List Char) (h : Hit) (hm : h ∈ arch47Hits txt) :
    HitFromMatcher sARCH47 txt h := by
  refine filterMap_hit_spec sARCH47 sARCH47_sound _ txt h ?_ hm
  intro st en d hh hg
  simp only at hg
  cases hl : lookupTbl ARCHIVE_REPORT_MAP d with
  | none => simp only [hl] at hg; cases hg
  | some info =>
    simp only [hl] at hg
    cases hg
    simp [mkHit]

/-- The builder of the *30 archiving pass constructs records at the span. -/
theorem arch30Hits_spec (txt : List Char) (h : Hit) (hm : h ∈ arch30Hits txt) :
    HitFromMatcher sARCH30 txt h := by
  refine filterMap_hit_spec sARCH30 sARCH30_sound _ txt h ?_ hm
  intro st en d hh hg
  simp only at hg
  cases hg
  simp [mkHit]

/-- The builder of the read-program pass constructs records at the span. -/
theorem readHits_spec (txt : List Char) (h : Hit) (hm : h ∈ readHits txt) :
    HitFromMatcher sREAD txt h := by
  refine filterMap_hit_spec sREAD sREAD_sound _ txt h ?_ hm
  intro st en d hh hg
  simp only at hg
  cases hg
  simp [mkHit]

/-- Every record of a scan comes from one of the five matchers, at its
own span, with the reserved fields constant. -/
theorem find_hit_spec (txt : String) (h : Hit)
    (hm : h ∈ find_mm_purchasing_issues txt) :
    HitFromMatcher sTXN txt.data h ∨ HitFromMatcher sFUNC txt.data h ∨
    HitFromMatcher sARCH47 txt.data h ∨ HitFromMatcher sARCH30 txt.data h ∨
    HitFromMatcher sREAD txt.data h := by
  simp only [find_mm_purchasing_issues] at hm
  split at hm
  · cases hm
  · simp only [List.mem_append] at hm
    rcases hm with ((((hm | hm) | hm) | hm) | hm)
    · exact Or.inl (txnHits_spec txt.data h hm)
    · exact Or.inr (Or.inl (funcHits_spec txt.data h hm))
    · exact Or.inr (Or.inr (Or.inl (arch47Hits_spec txt.data h hm)))
    · exact Or.inr (Or.inr (Or.inr (Or.inl (arch30Hits_spec txt.data h hm))))
    · exact Or.inr (Or.inr (Or.inr (Or.inr (readHits_spec txt.data h hm))))

-- -----------------------------
-- Claims
-- -----------------------------

set_option maxRecDepth 10000

/-- Substring containment on character lists (Python `in` on strings). -/
def containsSub (needle : List Char) : List Char → Bool
  | [] => needle.isEmpty
  | c :: cs => List.isPrefixOf needle (c :: cs) || containsSub needle cs

/-- The record produced by scanning `"SUBMIT ME28."`, used as a concrete
instantiation for the universally quantified claims. -/
def sampleHit28 : Hit :=
  ⟨"None", "Transaction", "ME28", 0, 12, [], false, "SUBMIT ME29N.", none, none⟩

/-- Claim C1: the claim states that no Transaction record is produced for
a call site whose identifier merely has a deprecated code as a proper
prefix.  The code violates this: `TXN_RE` has no word-boundary after the
code (unlike the three report patterns), so scanning
`CALL TRANSACTION ME21N.` emits a Transaction record for `ME21` covering
exactly the text `CALL TRANSACTION ME21` (span `[0, 21)`), suggesting the
very transaction that is already being called. -/
theorem C1_prefix_match_behavior :
    find_mm_purchasing_issues "CALL TRANSACTION ME21N." =
      [⟨"None", "Transaction", "ME21", 0, 21, [], false,
        "CALL TRANSACTION " ++ squo ++ "ME21N" ++ squo ++ ".", none, none⟩] := by
  decide

/-- Claim C2, counterexample: scanning `SUBMIT RM06ER30.` yields two
records covering the same occurrence, span `[0, 16)`, both of category
Report — the read-only name `RM06ER30` also matches the generic `*30`
archived-report pattern, so it is not reported by exactly one pass. -/
theorem C2_counterexample_double_report :
    (find_mm_purchasing_issues "SUBMIT RM06ER30.").map
        (fun h => (h.target_type, h.start_char_in_unit, h.end_char_in_unit)) =
      [("Report", 0, 16), ("Report", 0, 16)] := by
  decide

/-- Claim C2, amended: a read-only report name matching the generic `*30`
pattern is reported by exactly two passes — the generic `*30`
archived-report pass and the read-only pass, both category Report, with
identical spans — and by no other pass:  scanning `SUBMIT RM06ER30.`
yields exactly the generic-redirect record followed by the SARI-advisory
record, the transaction, remote-call and `*47` passes contributing
nothing. -/
theorem C2_amended_two_passes :
    find_mm_purchasing_issues "SUBMIT RM06ER30." =
      [⟨"None", "Report", "RM06ER30", 0, 16, [], true,
        "SUBMIT <corresponding RM06**70 report>.", none,
        some "Move to RM06**70 reports (EhP4+)."⟩,
       ⟨"None", "Report", "RM06ER30", 0, 16, [], true,
        "Use transaction SARI for displaying archived MM Purchasing documents.", none,
        some "Read programs still usable; consider using Archive Information System (SARI)."⟩] ∧
    arch30Hits "SUBMIT RM06ER30.".data =
      [⟨"None", "Report", "RM06ER30", 0, 16, [], true,
        "SUBMIT <corresponding RM06**70 report>.", none,
        some "Move to RM06**70 reports (EhP4+)."⟩] ∧
    readHits "SUBMIT RM06ER30.".data =
      [⟨"None", "Report", "RM06ER30", 0, 16, [], true,
        "Use transaction SARI for displaying archived MM Purchasing documents.", none,
        some "Read programs still usable; consider using Archive Information System (SARI)."⟩] ∧
    txnHits "SUBMIT RM06ER30.".data = [] ∧
    funcHits "SUBMIT RM06ER30.".data = [] ∧
    arch47Hits "SUBMIT RM06ER30.".data = [] := by
  refine ⟨by decide, by decide, by decide, by decide, by decide, by decide⟩

/-- Claim C3: span correctness.  Every record returned by a scan of `txt`
satisfies `HitFromMatcher` for one of the five matchers: the slice of the
text over `[start_char_in_unit, end_char_in_unit)` is exactly the
character sequence consumed by the successful run of that matcher at the
start offset — the exact original call-site text (keyword + identifier +
trailing syntax), case preserved, since the consumed characters are taken
from the original text itself. -/
theorem C3_span_correctness :
    ∀ (txt : String) (h : Hit), h ∈ find_mm_purchasing_issues txt →
      HitFromMatcher sTXN txt.data h ∨ HitFromMatcher sFUNC txt.data h ∨
      HitFromMatcher sARCH47 txt.data h ∨ HitFromMatcher sARCH30 txt.data h ∨
      HitFromMatcher sREAD txt.data h :=
  fun txt h hm => find_hit_spec txt h hm

/-- Witness for C3 at the scan of `"SUBMIT ME28."` and its single record. -/
theorem C3_span_correctness_witness :
    HitFromMatcher sTXN "SUBMIT ME28.".data sampleHit28 ∨
    HitFromMatcher sFUNC "SUBMIT ME28.".data sampleHit28 ∨
    HitFromMatcher sARCH47 "SUBMIT ME28.".data sampleHit28 ∨
    HitFromMatcher sARCH30 "SUBMIT ME28.".data sampleHit28 ∨
    HitFromMatcher sREAD "SUBMIT ME28.".data sampleHit28 :=
  C3_span_correctness "SUBMIT ME28." sampleHit28 (by decide)

/-- Claim C4: for every deprecated transaction code with exactly one
replacement, scanning the minimal invocation
`CALL TRANSACTION <code>.` produces exactly one record, of category
Transaction for that code, with `ambiguous = false` and a suggested
statement containing the replacement code. -/
theorem C4_single_replacement :
    ∀ prc ∈ TXN_MAP, prc.2.length = 1 →
      (find_mm_purchasing_issues ("CALL TRANSACTION " ++ prc.1 ++ ".")).length = 1 ∧
      ∀ h ∈ find_mm_purchasing_issues ("CALL TRANSACTION " ++ prc.1 ++ "."),
        h.target_type = "Transaction" ∧ h.target_name = prc.1 ∧ h.ambiguous = false ∧
        containsSub (prc.2.headD "").data h.suggested_statement.data = true := by
  decide

/-- Witness for C4 at the table entry of `ME21`. -/
theorem C4_single_replacement_witness :
    (("ME21", ["ME21N"]) ∈ TXN_MAP ∧ (["ME21N"] : List String).length = 1) ∧
    ((find_mm_purchasing_issues ("CALL TRANSACTION " ++ "ME21" ++ ".")).length = 1 ∧
     ∀ h ∈ find_mm_purchasing_issues ("CALL TRANSACTION " ++ "ME21" ++ "."),
       h.target_type = "Transaction" ∧ h.target_name = "ME21" ∧ h.ambiguous = false ∧
       containsSub ((["ME21N"] : List String).headD "").data h.suggested_statement.data = true) :=
  ⟨⟨by decide, by decide⟩,
   C4_single_replacement ("ME21", ["ME21N"]) (by decide) (by decide)⟩

/-- Claim C5: scanning an invocation of `ME24` (two replacements)
produces one record with `ambiguous = true` whose suggested statement is
the two single-replacement renderings joined by `" or "`. -/
theorem C5_me24_two_replacements :
    find_mm_purchasing_issues "CALL TRANSACTION ME24." =
      [⟨"None", "Transaction", "ME24", 0, 22, [], true,
        String.intercalate " or "
          [mk_suggested_statement "txn" "ME24" ["ME21N"] "CALL TRANSACTION".data,
           mk_suggested_statement "txn" "ME24" ["ME22N"] "CALL TRANSACTION".data],
        none, none⟩] ∧
    String.intercalate " or "
        [mk_suggested_statement "txn" "ME24" ["ME21N"] "CALL TRANSACTION".data,
         mk_suggested_statement "txn" "ME24" ["ME22N"] "CALL TRANSACTION".data] =
      "CALL TRANSACTION " ++ squo ++ "ME21N" ++ squo ++ ". or CALL TRANSACTION "
        ++ squo ++ "ME22N" ++ squo ++ "." := by
  refine ⟨by decide, by decide⟩

/-- Claim C6: a remote call of `IDOC_INPUT_PORDCH`, whose table
replacement equals its own name, yields one record with
`ambiguous = true` (not a silent skip), the suggested statement naming
the same function module. -/
theorem C6_pordch_self_mapping :
    find_mm_purchasing_issues
        ("CALL FUNCTION " ++ squo ++ "IDOC_INPUT_PORDCH" ++ squo ++ ".") =
      [⟨"None", "FunctionModule", "IDOC_INPUT_PORDCH", 0, 34, [], true,
        "CALL FUNCTION " ++ squo ++ "IDOC_INPUT_PORDCH" ++ squo ++ ".", none,
        some "Ensure BUS2012 version is used."⟩] ∧
    lookupTbl IDOC_MAP "IDOC_INPUT_PORDCH" =
      some ⟨"IDOC_INPUT_PORDCH", "Ensure BUS2012 version is used."⟩ := by
  refine ⟨by decide, by decide⟩

/-- Claim C7: scanning the empty text and scanning an absent (`None`)
text both return the empty record list; both scans are total functions,
so neither raises an error. -/
theorem C7_empty_and_null :
    find_mm_purchasing_issues "" = [] ∧
    scan_unit_code none = [] ∧ scan_unit_code (some "") = [] := by
  refine ⟨by decide, by decide, by decide⟩

/-- Claim C8: the output is the concatenation of the five category passes
in the fixed order transactions, remote calls, `*47` reports, generic
`*30` reports, read-only reports — not merged document order: on a text
where a report submission precedes a transaction invocation, the
transaction record (span starting at 17) still precedes the report
record (span starting at 0). -/
theorem C8_category_pass_order :
    (∀ txt : String, find_mm_purchasing_issues txt =
      txnHits txt.data ++ funcHits txt.data ++ arch47Hits txt.data
        ++ arch30Hits txt.data ++ readHits txt.data) ∧
    (find_mm_purchasing_issues "SUBMIT RM06EV47. CALL TRANSACTION ME21.").map
        (fun h => (h.target_type, h.start_char_in_unit, h.end_char_in_unit)) =
      [("Transaction", 17, 39), ("Report", 0, 16)] := by
  constructor
  · intro txt
    by_cases hz : txt = ""
    · subst hz; decide
    · simp [find_mm_purchasing_issues, hz]
  · decide

/-- Claim C9: scanning a submission of each fixed read-only report name
produces a record of category Report with `ambiguous = true` whose
suggested statement is the fixed textual SARI redirect (the same constant
for all three names), not an invocation statement. -/
theorem C9_read_only_reports :
    ∀ name ∈ READ_REPORTS,
      ∃ h ∈ find_mm_purchasing_issues ("SUBMIT " ++ name ++ "."),
        h.target_type = "Report" ∧ h.ambiguous = true ∧
        h.suggested_statement =
          "Use transaction SARI for displaying archived MM Purchasing documents." := by
  decide

/-- Witness for C9 at the read-only report `RM06ER30`. -/
theorem C9_read_only_reports_witness :
    ("RM06ER30" ∈ READ_REPORTS) ∧
    (∃ h ∈ find_mm_purchasing_issues ("SUBMIT " ++ "RM06ER30" ++ "."),
      h.target_type = "Report" ∧ h.ambiguous = true ∧
      h.suggested_statement =
        "Use transaction SARI for displaying archived MM Purchasing documents.") :=
  ⟨by decide, C9_read_only_reports "RM06ER30" (by decide)⟩

/-- Claim C10: every record of every scan has valid span bounds
(`0 ≤ start ≤ end ≤ length of the text`) and carries the reserved
constants: `table` is the sentinel string, `used_fields` is empty and
`suggested_fields` is null. -/
theorem C10_bounds_and_reserved :
    ∀ (txt : String) (h : Hit), h ∈ find_mm_purchasing_issues txt →
      0 ≤ h.start_char_in_unit ∧
      h.start_char_in_unit ≤ h.end_char_in_unit ∧
      h.end_char_in_unit ≤ txt.length ∧
      h.table = "None" ∧ h.used_fields = [] ∧ h.suggested_fields = none := by
  intro txt h hm
  have hlen : txt.length = txt.data.length := rfl
  rcases find_hit_spec txt h hm with hc | hc | hc | hc | hc <;>
    exact ⟨Nat.zero_le _, hc.1, by rw [hlen]; exact hc.2.1,
      hc.2.2.1, hc.2.2.2.1, hc.2.2.2.2.1⟩

/-- Witness for C10 at the scan of `"SUBMIT ME28."` and its record. -/
theorem C10_bounds_and_reserved_witness :
    0 ≤ sampleHit28.start_char_in_unit ∧
    sampleHit28.start_char_in_unit ≤ sampleHit28.end_char_in_unit ∧
    sampleHit28.end_char_in_unit ≤ ("SUBMIT ME28." : String).length ∧
    sampleHit28.table = "None" ∧ sampleHit28.used_fields = [] ∧
    sampleHit28.suggested_fields = none :=
  C10_bounds_and_reserved "SUBMIT ME28." sampleHit28 (by decide)
